import Mathlib

/-!
Verification development for the AI website generator repository.

The definitions below are a shallow embedding of the Python source files
`generator/views.py` and `generator/services/openrouter_service.py`.
Strings are modelled as `List Char` (Python `str` is a sequence of code
points, which matches Lean's `String.data`).  Python `dict`s (which keep
insertion order, update in place on an existing key and append new keys)
are modelled as association lists with `dictSet` / `dictHas` / `lookupA`.
The regular expressions used by `parse_generated_code` and
`generate_static_website` are modelled by a small backtracking matcher
(`matchRE`) whose alternation and star operators follow Python's `re`
semantics: leftmost alternative preferred, greedy stars try the longest
extension first, lazy stars the shortest.  All star operators in the
source patterns range over single-character classes, so the matcher only
provides stars over character classes; `re.finditer` is modelled by
`finditer`, which scans left to right and resumes after each match.
-/

-- ---------------------------------------------------------------------
-- Association lists modelling Python dicts
-- ---------------------------------------------------------------------

section Dict

variable {α β : Type} [DecidableEq α]

/-- First-match lookup in an association list (Python `d[k]` / `d.get(k)`
on a dict whose keys are unique, which holds for dicts built by
`dictSet`). -/
def lookupA : List (α × β) → α → Option β
  | [], _ => none
  | e :: t, k => if e.1 = k then some e.2 else lookupA t k

/-- Python `k in d`. -/
def dictHas : List (α × β) → α → Bool
  | [], _ => false
  | e :: t, k => if e.1 = k then true else dictHas t k

/-- Python `d[k] = v`: replace in place if the key exists, else append. -/
def dictSet : List (α × β) → α → β → List (α × β)
  | [], k, v => [(k, v)]
  | e :: t, k, v => if e.1 = k then (k, v) :: t else e :: dictSet t k v

/-- Left-biased choice on `Option`, used to state lookup lemmas. -/
def optOr (a b : Option β) : Option β :=
  match a with
  | some x => some x
  | none => b

/-- The first loop of `parse_generated_code`: unconditional dict
assignment for every match, in order. -/
def applyOverwrite (fs : List (α × β)) (l : List (α × β)) : List (α × β) :=
  l.foldl (fun fs e => dictSet fs e.1 e.2) fs

/-- The second loop of `parse_generated_code`: assignment guarded by
`if filename not in files`. -/
def applyKeepFirst (fs : List (α × β)) (l : List (α × β)) : List (α × β) :=
  l.foldl (fun fs e => if dictHas fs e.1 then fs else dictSet fs e.1 e.2) fs

end Dict

-- ---------------------------------------------------------------------
-- Python string primitives
-- ---------------------------------------------------------------------

/-- Unpack a Lean string literal for use with the `List Char` model. -/
def strL (s : String) : List Char := s.data

/-- Python `\s` for the ASCII range (the inputs handled by the claims are
ASCII; the source patterns are applied to LLM text completions). -/
def pySpace (c : Char) : Bool :=
  c = ' ' || c = '\t' || c = '\n' || c = '\r' || c = '\x0b' || c = '\x0c'

/-- Python `\w` for the ASCII range. -/
def pyWordChar (c : Char) : Bool :=
  c.isAlphanum || c = '_'

/-- Python `str.lower` (ASCII). -/
def pyLower (s : List Char) : List Char := s.map Char.toLower

/-- Python `str.strip()`: remove leading and trailing whitespace. -/
def pyStrip (s : List Char) : List Char :=
  ((s.dropWhile pySpace).reverse.dropWhile pySpace).reverse

/-- Exact prefix test. -/
def startsWithL : List Char → List Char → Bool
  | [], _ => true
  | _ :: _, [] => false
  | a :: as, b :: bs => a = b && startsWithL as bs

/-- Exact suffix test (Python `str.endswith`). -/
def endsWithL (pat s : List Char) : Bool :=
  startsWithL pat.reverse s.reverse

/-- Python substring containment `needle in hay`. -/
def containsSubL (needle : List Char) : List Char → Bool
  | [] => startsWithL needle []
  | c :: rest => startsWithL needle (c :: rest) || containsSubL needle rest

/-- Python `hay.find(needle)`: index of the first occurrence, `none` for
`-1`. -/
def pyFind (hay needle : List Char) : Option Nat :=
  match hay with
  | [] => if startsWithL needle [] then some 0 else none
  | c :: rest =>
    if startsWithL needle (c :: rest) then some 0
    else (pyFind rest needle).map (· + 1)

/-- Case-insensitive prefix test (used only to state the claims that talk
about case-insensitive matching). -/
def startsWithCI : List Char → List Char → Bool
  | [], _ => true
  | _ :: _, [] => false
  | a :: as, b :: bs => a.toLower = b.toLower && startsWithCI as bs

/-- Case-insensitive find, used to state claim C4's step (1). -/
def pyFindCI (hay needle : List Char) : Option Nat :=
  match hay with
  | [] => if startsWithCI needle [] then some 0 else none
  | c :: rest =>
    if startsWithCI needle (c :: rest) then some 0
    else (pyFindCI rest needle).map (· + 1)

/-- Python `str.replace` (all non-overlapping occurrences, left to
right); `fuel` is the length of the haystack. -/
def pyReplaceAux (needle repl : List Char) : Nat → List Char → List Char
  | 0, s => s
  | _ + 1, [] => []
  | fuel + 1, c :: rest =>
    if startsWithL needle (c :: rest) && !needle.isEmpty then
      repl ++ pyReplaceAux needle repl fuel ((c :: rest).drop needle.length)
    else c :: pyReplaceAux needle repl fuel rest

def pyReplace (s needle repl : List Char) : List Char :=
  pyReplaceAux needle repl s.length s

/-- Python slicing `s[:n]`. -/
def pyTake (s : String) (n : Nat) : String := String.mk (s.data.take n)

-- ---------------------------------------------------------------------
-- Backtracking regular-expression matcher (Python `re` subset)
-- ---------------------------------------------------------------------

/-- The regex subset used by the source patterns.  Stars range over
single-character classes only, which covers `[\w]*`, `\s*`, `.*?`, `.+?`
(the latter as a class followed by a lazy star).  `lookPred` models a
zero-width lookahead by a decision procedure for its (deterministic)
sub-pattern. -/
inductive RE where
  | eps
  | cls (p : Char → Bool)
  | lit (cs : List Char)
  | litCI (cs : List Char)
  | seq (a b : RE)
  | alt (a b : RE)
  | starC (greedy : Bool) (p : Char → Bool)
  | grp (n : Nat) (a : RE)
  | lookPred (f : List Char → Bool)

/-- Captured groups 1 and 2 (no source pattern has more). -/
def GroupsT := Option (List Char) × Option (List Char)

def setGroup (g : GroupsT) (n : Nat) (v : List Char) : GroupsT :=
  if n = 1 then (some v, g.2) else (g.1, some v)

def dropPrefixCS : List Char → List Char → Option (List Char)
  | [], s => some s
  | _ :: _, [] => none
  | a :: as, b :: bs => if a = b then dropPrefixCS as bs else none

def dropPrefixCI : List Char → List Char → Option (List Char)
  | [], s => some s
  | _ :: _, [] => none
  | a :: as, b :: bs => if a.toLower = b.toLower then dropPrefixCI as bs else none

/-- Greedy star over a character class: prefer the longest extension. -/
def starCG {α : Type} (p : Char → Bool) (k : List Char → Option α) :
    List Char → Option α
  | [] => k []
  | c :: rest =>
    if p c then optOr (starCG p k rest) (k (c :: rest)) else k (c :: rest)

/-- Lazy star over a character class: prefer the shortest extension. -/
def starCL {α : Type} (p : Char → Bool) (k : List Char → Option α) :
    List Char → Option α
  | [] => k []
  | c :: rest =>
    optOr (k (c :: rest)) (if p c then starCL p k rest else none)

/-- Backtracking matcher in continuation-passing style.  The first
success found in Python's exploration order is returned. -/
def matchRE {α : Type} : RE → List Char → GroupsT →
    (List Char → GroupsT → Option α) → Option α
  | .eps, s, g, k => k s g
  | .cls p, s, g, k =>
    match s with
    | [] => none
    | c :: rest => if p c then k rest g else none
  | .lit cs, s, g, k =>
    match dropPrefixCS cs s with
    | some r => k r g
    | none => none
  | .litCI cs, s, g, k =>
    match dropPrefixCI cs s with
    | some r => k r g
    | none => none
  | .seq a b, s, g, k => matchRE a s g (fun s' g' => matchRE b s' g' k)
  | .alt a b, s, g, k => optOr (matchRE a s g k) (matchRE b s g k)
  | .starC true p, s, g, k => starCG p (fun s' => k s' g) s
  | .starC false p, s, g, k => starCL p (fun s' => k s' g) s
  | .grp n a, s, g, k =>
    matchRE a s g (fun s' g' => k s' (setGroup g' n (s.take (s.length - s'.length))))
  | .lookPred f, s, g, k => if f s then k s g else none

/-- Try to match `r` anchored at the start of `s`; on success return the
number of characters consumed and the captured groups. -/
def tryMatch (r : RE) (s : List Char) : Option (Nat × GroupsT) :=
  matchRE r s (none, none) (fun s' g => some (s.length - s'.length, g))

/-- `re.finditer`: scan left to right, resume after each match (the
source patterns always consume at least one character; after a
hypothetical empty match the scan advances by one, as Python does). -/
def finditerAux (r : RE) : Nat → List Char → List GroupsT
  | 0, _ => []
  | _ + 1, [] => []
  | fuel + 1, c :: rest =>
    match tryMatch r (c :: rest) with
    | some (n, g) =>
      g :: finditerAux r fuel (if n = 0 then rest else (c :: rest).drop n)
    | none => finditerAux r fuel rest

def finditer (r : RE) (s : List Char) : List GroupsT :=
  finditerAux r s.length s

/-- `re.search(...).group(1)`: first position (leftmost) where the
pattern matches, returning capture group 1. -/
def searchG1 (r : RE) : List Char → Option (List Char)
  | [] => (tryMatch r []).bind (fun m => m.2.1)
  | c :: rest =>
    match tryMatch r (c :: rest) with
    | some m => m.2.1
    | none => searchG1 r rest

-- ---------------------------------------------------------------------
-- The source regular expressions (generator/views.py)
-- ---------------------------------------------------------------------

/-- Matches any character; the source patterns are compiled with
`re.DOTALL`, so `.` also matches newlines. -/
def anyCh (_ : Char) : Bool := true

/-- Pattern 1 of `parse_generated_code` (views.py line 66), compiled with
`re.DOTALL | re.IGNORECASE`:
fence, word-char run, optional newline, a comment leader, whitespace,
the keyword, whitespace, lazily captured first line, newline, lazily
captured body, closing fence. -/
def pattern1 : RE :=
  .seq (.lit (strL "```"))
  (.seq (.starC true pyWordChar)
  (.seq (.alt (.lit (strL "\n")) .eps)
  (.seq (.alt (.lit (strL "//")) (.lit (strL "#")))
  (.seq (.starC true pySpace)
  (.seq (.litCI (strL "filename:"))
  (.seq (.starC true pySpace)
  (.seq (.grp 1 (.seq (.cls anyCh) (.starC false anyCh)))
  (.seq (.lit (strL "\n"))
  (.seq (.grp 2 (.starC false anyCh))
        (.lit (strL "```")))))))))))

/-- Decision procedure for the zero-width lookahead of pattern 2,
`(?=(?://|#)\s*filename:|$)`.  The sub-pattern is deterministic: the
comment leaders are literals, `\s*` is a maximal whitespace run (no
shorter run can help, since the following literal starts with a
non-whitespace character), and `$` without `re.MULTILINE` matches at the
end of the text or just before a final newline. -/
def markerAhead (s : List Char) : Bool :=
  let comment :=
    if startsWithL (strL "//") s then some (s.drop 2)
    else if startsWithL (strL "#") s then some (s.drop 1)
    else none
  match comment with
  | some r => startsWithCI (strL "filename:") (r.dropWhile pySpace)
  | none => false

def p2look (s : List Char) : Bool :=
  markerAhead s || s.isEmpty || s = [ '\n']

/-- Pattern 2 of `parse_generated_code` (views.py line 75), compiled with
`re.DOTALL | re.IGNORECASE`. -/
def pattern2 : RE :=
  .seq (.alt (.lit (strL "//")) (.lit (strL "#")))
  (.seq (.starC true pySpace)
  (.seq (.litCI (strL "filename:"))
  (.seq (.starC true pySpace)
  (.seq (.grp 1 (.seq (.cls anyCh) (.starC false anyCh)))
  (.seq (.lit (strL "\n"))
  (.seq (.grp 2 (.starC false anyCh))
        (.lookPred p2look)))))))

/-- The fallback block search of `parse_generated_code` (views.py line
89): case-sensitive, `re.DOTALL`. -/
def fallbackPattern : RE :=
  .seq (.lit (strL "```html\n"))
  (.seq (.grp 1 (.starC false anyCh))
        (.lit (strL "```")))

/-- Pattern 3 of `generate_static_website` (views.py line 326): an html
fence whose content starts with a doctype, `re.DOTALL | re.IGNORECASE`. -/
def pattern3 : RE :=
  .seq (.litCI (strL "```html"))
  (.seq (.starC true pySpace)
  (.seq (.grp 1 (.seq (.litCI (strL "<!DOCTYPE html>")) (.starC false anyCh)))
        (.lit (strL "```"))))

/-- Pattern 4 of `generate_static_website` (views.py line 331): any
`html`/`htm` fence, `re.DOTALL | re.IGNORECASE`. -/
def pattern4 : RE :=
  .seq (.litCI (strL "```htm"))
  (.seq (.alt (.litCI (strL "l")) .eps)
  (.seq (.starC true pySpace)
  (.seq (.grp 1 (.starC false anyCh))
        (.lit (strL "```")))))

-- ---------------------------------------------------------------------
-- parse_generated_code (views.py lines 61-100)
-- ---------------------------------------------------------------------

/-- `re.sub(r'```\s*$', '', code)` applied to an already stripped
string.  A stripped string has no trailing whitespace, so the pattern
matches exactly when the string ends in a fence, and the substitution
then removes those three characters (leftmost-match scanning cannot
produce any other match, since everything between the matched fence and
the end must be whitespace). -/
def stripTrailingFence (c : List Char) : List Char :=
  if endsWithL (strL "```") c then c.take (c.length - 3) else c

/-- Matches of pattern 1 after the per-match processing of the source:
`filename = m.group(1).strip()`, `code = m.group(2).strip()`. -/
def pattern1Matches (content : List Char) : List (List Char × List Char) :=
  (finditer pattern1 content).map
    (fun g => (pyStrip (g.1.getD []), pyStrip (g.2.getD [])))

/-- Matches of pattern 2 after the per-match processing of the source:
`filename = m.group(1).strip()`, `code = m.group(2).strip()` followed by
`code = re.sub(r'```\s*$', '', code)`. -/
def pattern2Matches (content : List Char) : List (List Char × List Char) :=
  (finditer pattern2 content).map
    (fun g => (pyStrip (g.1.getD []), stripTrailingFence (pyStrip (g.2.getD []))))

/-- The fallback value registered under `index.html` when both passes
produce no file (views.py lines 86-98). -/
def parse_fallback (content : List Char) : List Char :=
  match searchG1 fallbackPattern content with
  | some inner => pyStrip inner
  | none =>
    match pyFind content (strL "<!DOCTYPE html>") with
    | some i => content.drop i
    | none => content

/-- `parse_generated_code` (views.py lines 61-100) over `List Char`. -/
def parse_generated_codeL (content : List Char) : List (List Char × List Char) :=
  let files := applyOverwrite [] (pattern1Matches content)
  let files := applyKeepFirst files (pattern2Matches content)
  if files.isEmpty then [(strL "index.html", parse_fallback content)] else files

/-- `parse_generated_code` at the `String` interface. -/
def parse_generated_code (content : String) : List (String × String) :=
  (parse_generated_codeL content.data).map (fun e => (String.mk e.1, String.mk e.2))

-- ---------------------------------------------------------------------
-- categorize_file (views.py lines 103-120)
-- ---------------------------------------------------------------------

def frontendNeedles : List (List Char) :=
  [ strL "frontend/", strL "client/", strL "components/", strL "pages/",
    strL ".html", strL ".css", strL ".jsx", strL ".tsx", strL ".vue"]

def backendNeedles : List (List Char) :=
  [ strL "backend/", strL "server/", strL "api/", strL "routes/",
    strL "controllers/", strL "server.js", strL "app.py", strL "main.py"]

def databaseNeedles : List (List Char) :=
  [ strL "schema", strL "migration", strL "seed", strL ".sql",
    strL "models.py", strL "models.js"]

def configNeedles : List (List Char) :=
  [ strL ".env", strL "config", strL "package.json",
    strL "requirements.txt", strL "docker"]

/-- `any(x in filename_lower for x in needles)`. -/
def anyNeedle (needles : List (List Char)) (fl : List Char) : Bool :=
  needles.any (fun n => containsSubL n fl)

/-- `categorize_file` (views.py lines 103-120) over `List Char`. -/
def categorize_fileL (filename : List Char) : List Char :=
  let fl := pyLower filename
  if anyNeedle frontendNeedles fl then strL "frontend"
  else if anyNeedle backendNeedles fl then strL "backend"
  else if anyNeedle databaseNeedles fl then strL "database"
  else if anyNeedle configNeedles fl then strL "config"
  else if endsWithL (strL ".md") fl then strL "docs"
  else strL "other"

/-- `categorize_file` at the `String` interface. -/
def categorize_file (filename : String) : String :=
  String.mk (categorize_fileL filename.data)

/-- The claim's characterization of the `frontend` rule (directory
segment containment or extension *suffix*), stated from the spec's words
for comparison against `categorize_file`. -/
def claimFrontendCond (path : List Char) : Bool :=
  let fl := pyLower path
  anyNeedle [ strL "frontend/", strL "client/", strL "components/", strL "pages/"] fl
  || [ strL ".html", strL ".css", strL ".jsx", strL ".tsx", strL ".vue"].any
       (fun n => endsWithL n fl)

-- ---------------------------------------------------------------------
-- generate_fullstack_website, success path (views.py lines 459-480)
-- ---------------------------------------------------------------------

/-- `organized_files` initializer of `generate_fullstack_website`
(views.py lines 463-469): note the absence of an `other` key. -/
def initOrganized : List (String × List (String × String)) :=
  [("frontend", []), ("backend", []), ("database", []), ("config", []), ("docs", [])]

/-- `organized_files[category][filename] = content`: Python raises
`KeyError(category)` when `category` is not a key of the outer dict;
modelled by `Except.error category`. -/
def setInner (org : List (String × List (String × String)))
    (cat fn c : String) : List (String × List (String × String)) :=
  org.map (fun e => if e.1 = cat then (e.1, dictSet e.2 fn c) else e)

/-- The organizing loop of `generate_fullstack_website` (views.py lines
471-473). -/
def organizeFiles (files : List (String × String)) :
    Except String (List (String × List (String × String))) :=
  files.foldl
    (fun acc e =>
      match acc with
      | .error err => .error err
      | .ok org =>
        let cat := categorize_file e.1
        if dictHas org cat then .ok (setInner org cat e.1 e.2)
        else .error cat)
    (.ok initOrganized)

/-- The pure part of `generate_fullstack_website`'s success branch:
parse the completion text, then organize by category.  `Except.error c`
models the `KeyError(c)` escaping the function. -/
def generate_fullstack_files (content : String) :
    Except String (List (String × List (String × String))) :=
  organizeFiles (parse_generated_code content)

-- ---------------------------------------------------------------------
-- generate_static_website, extraction of the HTML (views.py 315-351)
-- ---------------------------------------------------------------------

/-- The pattern-selection stage (views.py lines 320-337): doctype find,
then `<html` find, then pattern 3, then pattern 4, else the whole
content. -/
def extract_html (content : List Char) : List Char :=
  match pyFind content (strL "<!DOCTYPE html>") with
  | some i => content.drop i
  | none =>
    match pyFind content (strL "<html") with
    | some i => content.drop i
    | none =>
      match searchG1 pattern3 content with
      | some g => g
      | none =>
        match searchG1 pattern4 content with
        | some g => g
        | none => content

def tailwindNeedle : List Char := strL "cdn.tailwindcss.com"

def headNeedle : List Char := strL "<head>"

def headReplacement : List Char :=
  strL "<head>\n  <script src=\"https://cdn.tailwindcss.com\"></script>"

/-- Extraction followed by the Tailwind injection (views.py lines
340-345) and the final `.strip()` (line 349). -/
def extract_html_full (content : List Char) : List Char :=
  let h := extract_html content
  let h :=
    if !containsSubL tailwindNeedle h && containsSubL headNeedle h then
      pyReplace h headNeedle headReplacement
    else h
  pyStrip h

-- ---------------------------------------------------------------------
-- Completion client (views.py lines 23-55 and
-- services/openrouter_service.py lines 14-47)
-- ---------------------------------------------------------------------

/-- JSON values, the shape of a decoded backend response body. -/
inductive JValue where
  | null
  | jbool (b : Bool)
  | jnum (n : Int)
  | jstr (s : String)
  | jarr (xs : List JValue)
  | jobj (fields : List (String × JValue))

/-- The Python exception classes that can arise in the client code.
`requests` (2.27 and later) derives `JSONDecodeError` from
`RequestException`, so undecodable JSON is caught by
`except requests.exceptions.RequestException`; `KeyError`, `IndexError`,
`TypeError` and `AttributeError` are not. -/
inductive PyExcKind where
  | timeout
  | connectionError
  | httpError
  | jsonDecodeError
  | keyError
  | indexError
  | typeError
  | attributeError
deriving DecidableEq

structure PyExc where
  kind : PyExcKind
  msg : String
deriving DecidableEq

/-- `isinstance(e, requests.exceptions.RequestException)`. -/
def isRequestException : PyExcKind → Bool
  | .timeout => true
  | .connectionError => true
  | .httpError => true
  | .jsonDecodeError => true
  | _ => false

/-- `str(e)`: the human-readable reason carried by the exception. -/
def pyStr (e : PyExc) : String := e.msg

/-- What the network produced: either `requests.post` itself raised
(timeout, connection error) or an HTTP response arrived with a status
code and a body that either decodes to JSON or does not. -/
inductive BackendOutcome where
  | netError (k : PyExcKind) (msg : String)
  | httpResponse (status : Nat) (body : Option JValue)

/-- `d[key]` on a JSON value: `KeyError` when the key is missing,
`TypeError` when the value is not a dict (string keys cannot subscript
lists). -/
def pySubscript (v : JValue) (key : String) : Except PyExc JValue :=
  match v with
  | .jobj fields =>
    match lookupA fields key with
    | some x => .ok x
    | none => .error ⟨.keyError, key⟩
  | _ => .error ⟨.typeError, "value is not subscriptable by a string"⟩

/-- `v[i]` for a non-negative integer index. -/
def pyIndexN (v : JValue) (i : Nat) : Except PyExc JValue :=
  match v with
  | .jarr xs =>
    match xs.get? i with
    | some x => .ok x
    | none => .error ⟨.indexError, "list index out of range"⟩
  | .jobj _ => .error ⟨.keyError, toString i⟩
  | _ => .error ⟨.typeError, "value is not subscriptable by an integer"⟩

/-- `v.get(key, default)`: only dicts have `.get`; on anything else
Python raises `AttributeError`. -/
def pyDictGet (v : JValue) (key : String) (default : JValue) : Except PyExc JValue :=
  match v with
  | .jobj fields => .ok ((lookupA fields key).getD default)
  | _ => .error ⟨.attributeError, "value has no attribute get"⟩

/-- `requests.post(...)`, `response.raise_for_status()` and
`response.json()`: transport errors propagate, 4xx/5xx raise
`HTTPError`, an undecodable body raises `JSONDecodeError`. -/
def requestsFlow (outcome : BackendOutcome) : Except PyExc JValue :=
  match outcome with
  | .netError k msg => .error ⟨k, msg⟩
  | .httpResponse status body =>
    if 400 ≤ status ∧ status < 600 then .error ⟨.httpError, "HTTP error"⟩
    else
      match body with
      | some j => .ok j
      | none => .error ⟨.jsonDecodeError, "Expecting value"⟩

/-- The shared field extraction of both clients:
`result["choices"][0]["message"]["content"]`,
`result.get("usage", {}).get("total_tokens", 0)` and
`result.get("model", modelDefault)`. -/
def extractApiFields (result : JValue) (modelDefault : JValue) :
    Except PyExc (JValue × JValue × JValue) := do
  let choices ← pySubscript result "choices"
  let c0 ← pyIndexN choices 0
  let message ← pySubscript c0 "message"
  let content ← pySubscript message "content"
  let usage ← pyDictGet result "usage" (.jobj [])
  let tokens ← pyDictGet usage "total_tokens" (.jnum 0)
  let modelUsed ← pyDictGet result "model" modelDefault
  pure (content, tokens, modelUsed)

/-- The body of the `try` block shared by both clients. -/
def apiRequestRaw (outcome : BackendOutcome) (modelDefault : JValue) :
    Except PyExc (JValue × JValue × JValue) := do
  let result ← requestsFlow outcome
  extractApiFields result modelDefault

/-- The dict returned by either client: the success shape or the failure
shape. -/
inductive ApiResult where
  | success (content tokens model : JValue)
  | failure (error : String)

/-- `call_openrouter_api` (views.py lines 23-55): the requested model id
is the `.get("model", ...)` default, and `except Exception` catches
every exception, so the function itself never raises —
`Except.error` is unreachable by construction of the final `match`. -/
def call_openrouter_api (outcome : BackendOutcome) (model : String) :
    Except PyExc ApiResult :=
  match apiRequestRaw outcome (.jstr model) with
  | .ok (c, t, m) => .ok (.success c t m)
  | .error e => .ok (.failure (pyStr e))

/-- `OpenRouterService._make_request` (openrouter_service.py lines
14-47): the `model` parameter is optional (`None` by default), and only
`requests.exceptions.RequestException` is caught — any other exception
propagates to the caller, modelled by `Except.error`. -/
def make_request (outcome : BackendOutcome) (model : Option String) :
    Except PyExc ApiResult :=
  match apiRequestRaw outcome (model.elim JValue.null JValue.jstr) with
  | .ok (c, t, m) => .ok (.success c t m)
  | .error e =>
    if isRequestException e.kind then .ok (.failure (pyStr e)) else .error e

-- ---------------------------------------------------------------------
-- download_project (views.py lines 689-739)
-- ---------------------------------------------------------------------

/-- The fields of a stored full-stack project that `download_project`
reads. -/
structure Project where
  title : String
  description : String
  stack : String
  has_authentication : Bool
  has_database : Bool
  has_api : Bool
  files : List (String × List (String × String))

/-- The generated README (views.py lines 706-723). -/
def fullstackReadme (p : Project) : String :=
  "# " ++ p.title ++ "\n\n## Description\n" ++ p.description ++
  "\n\n## Stack\n" ++ p.stack ++ "\n\n## Features\n" ++
  (if p.has_authentication then "- Authentication" else "") ++ "\n" ++
  (if p.has_database then "- Database" else "") ++ "\n" ++
  (if p.has_api then "- API" else "") ++
  "\n\n## Setup\nSee individual file comments for setup instructions.\n\nGenerated with Django AI Website Generator\n"

/-- Every file written by the category loop, in iteration order. -/
def flattenFiles (files : List (String × List (String × String))) :
    List (String × String) :=
  (files.map Prod.snd).flatten

/-- The archive entry list for a full-stack project (views.py lines
701-724): every file, then the generated README.  `zipfile.writestr`
never deduplicates names, so the entry list is a plain append. -/
def buildFullstackZip (p : Project) : List (String × String) :=
  flattenFiles p.files ++ [("README.md", fullstackReadme p)]

def static_readme : String := "# Static Website\n\nOpen index.html in your browser."

/-- The archive entry list for the static fallback (views.py lines
726-729). -/
def staticZip (html : String) : List (String × String) :=
  [("index.html", html), ("README.md", static_readme)]

/-- An HTTP response of `download_project`: a zip attachment with its
suggested filename, or a plain response with a status code. -/
inductive DownloadResult where
  | zipAttachment (entries : List (String × String)) (filename : String)
  | plainResponse (body : String) (status : Nat)
deriving DecidableEq

/-- `filename = project_id if project_id else 'static-website'`
(views.py line 737), with Python truthiness on the optional string. -/
def downloadFilename (pid : Option String) : String :=
  match pid with
  | some p => if p = "" then "static-website" else p
  | none => "static-website"

/-- `if project_id and project_id in generated_websites` followed by
`project = generated_websites[project_id]` (views.py lines 697-699). -/
def registryLookup (pid : Option String) (registry : List (String × Project)) :
    Option Project :=
  match pid with
  | none => none
  | some p => if p = "" then none else lookupA registry p

/-- `download_project` (views.py lines 689-739). -/
def download_project (pid : Option String) (registry : List (String × Project))
    (latest_html : Option String) : DownloadResult :=
  match registryLookup pid registry with
  | some proj => .zipAttachment (buildFullstackZip proj) (downloadFilename pid)
  | none =>
    match latest_html with
    | some h => .zipAttachment (staticZip h) (downloadFilename pid)
    | none => .plainResponse "No project to download" 404

-- ---------------------------------------------------------------------
-- convert_to_fullstack, user prompt (views.py lines 491-529)
-- ---------------------------------------------------------------------

/-- The `feature_desc` list built by `convert_to_fullstack` (views.py
lines 494-500). -/
def featureDescConvert (has_auth has_db has_api : Bool) : List String :=
  (if has_auth then ["User authentication with login/register"] else []) ++
  (if has_db then ["Database to store user data and content"] else []) ++
  (if has_api then ["RESTful API endpoints"] else [])

/-- The f-string user prompt of `convert_to_fullstack` (views.py lines
512-529), with `static_html[:3000]` modelled by `pyTake`. -/
def convert_user_prompt (static_html stack : String)
    (has_auth has_db has_api : Bool) : String :=
  "Convert this static website to a full-stack " ++ stack ++
  " application:\n\nStatic HTML:\n```html\n" ++
  pyTake static_html 3000 ++
  "  # Truncate if too long\n```\n\nAdd these features:\n" ++
  String.intercalate "\n"
    ((featureDescConvert has_auth has_db has_api).map (fun f => "- " ++ f)) ++
  "\n\nProvide:\n1. Updated frontend code (connected to backend)\n2. Complete backend code\n3. Database schema\n4. Configuration files\n5. README with setup instructions\n\nUse filename markers for each file."

/-- The part of the conversion prompt before the truncated document. -/
def convertPromptPre (stack : String) : String :=
  "Convert this static website to a full-stack " ++ stack ++
  " application:\n\nStatic HTML:\n```html\n"

/-- The part of the conversion prompt after the truncated document. -/
def convertPromptPost (has_auth has_db has_api : Bool) : String :=
  "  # Truncate if too long\n```\n\nAdd these features:\n" ++
  String.intercalate "\n"
    ((featureDescConvert has_auth has_db has_api).map (fun f => "- " ++ f)) ++
  "\n\nProvide:\n1. Updated frontend code (connected to backend)\n2. Complete backend code\n3. Database schema\n4. Configuration files\n5. README with setup instructions\n\nUse filename markers for each file."

-- ---------------------------------------------------------------------
-- Lookup lemmas for the two parser passes
-- ---------------------------------------------------------------------

section DictLemmas

variable {α β : Type} [DecidableEq α]

@[simp] theorem optOr_some (a : β) (b : Option β) : optOr (some a) b = some a := rfl

@[simp] theorem optOr_none (b : Option β) : optOr none b = b := rfl

theorem optOr_assoc (a b c : Option β) :
    optOr (optOr a b) c = optOr a (optOr b c) := by
  cases a <;> rfl

theorem lookupA_append (l₁ l₂ : List (α × β)) (k : α) :
    lookupA (l₁ ++ l₂) k = optOr (lookupA l₁ k) (lookupA l₂ k) := by
  induction l₁ with
  | nil => simp [lookupA]
  | cons e t ih =>
    by_cases h : e.1 = k
    · simp [lookupA, h]
    · simp [lookupA, h, ih]

theorem lookupA_dictSet (fs : List (α × β)) (a : α) (v : β) (k : α) :
    lookupA (dictSet fs a v) k = if k = a then some v else lookupA fs k := by
  induction fs with
  | nil =>
    by_cases h : k = a
    · simp [dictSet, lookupA, h]
    · have h2 : ¬(a = k) := fun hh => h hh.symm
      simp [dictSet, lookupA, h, h2]
  | cons e t ih =>
    by_cases he : e.1 = a
    · by_cases hk : k = a
      · simp [dictSet, lookupA, he, hk]
      · have : ¬(a = k) := fun hh => hk hh.symm
        simp [dictSet, lookupA, he, hk, this]
    · by_cases hek : e.1 = k
      · have : ¬(k = a) := fun hh => he (hek.trans hh)
        simp [dictSet, lookupA, he, hek, this]
      · simp [dictSet, lookupA, he, hek, ih]

theorem dictHas_eq_isSome (fs : List (α × β)) (k : α) :
    dictHas fs k = (lookupA fs k).isSome := by
  induction fs with
  | nil => simp [dictHas, lookupA]
  | cons e t ih =>
    by_cases h : e.1 = k
    · simp [dictHas, lookupA, h]
    · simp [dictHas, lookupA, h, ih]

theorem lookupA_applyOverwrite (l : List (α × β)) :
    ∀ (fs : List (α × β)) (k : α),
      lookupA (applyOverwrite fs l) k =
        optOr (lookupA l.reverse k) (lookupA fs k) := by
  induction l with
  | nil => intro fs k; simp [applyOverwrite, lookupA]
  | cons e t ih =>
    intro fs k
    have step : applyOverwrite fs (e :: t) = applyOverwrite (dictSet fs e.1 e.2) t := rfl
    rw [step, ih]
    have hrev : (e :: t).reverse = t.reverse ++ [e] := by simp
    rw [hrev, lookupA_append, optOr_assoc]
    cases lookupA t.reverse k with
    | some v => rfl
    | none =>
      by_cases h : k = e.1
      · simp [lookupA, lookupA_dictSet, h]
      · have : ¬(e.1 = k) := fun hh => h hh.symm
        simp [lookupA, lookupA_dictSet, h, this]

theorem lookupA_applyKeepFirst (l : List (α × β)) :
    ∀ (fs : List (α × β)) (k : α),
      lookupA (applyKeepFirst fs l) k =
        optOr (lookupA fs k) (lookupA l k) := by
  induction l with
  | nil => intro fs k; simp [applyKeepFirst, lookupA]; cases lookupA fs k <;> rfl
  | cons e t ih =>
    intro fs k
    by_cases hhas : dictHas fs e.1
    · have step : applyKeepFirst fs (e :: t) = applyKeepFirst fs t := by
        simp [applyKeepFirst, hhas]
      rw [step, ih]
      cases hfs : lookupA fs k with
      | some v => rfl
      | none =>
        by_cases h : e.1 = k
        · exfalso
          rw [dictHas_eq_isSome, h, hfs] at hhas
          simp at hhas
        · simp [lookupA, h]
    · have step : applyKeepFirst fs (e :: t) =
          applyKeepFirst (dictSet fs e.1 e.2) t := by
        simp [applyKeepFirst, hhas]
      rw [step, ih]
      by_cases h : k = e.1
      · subst h
        have hfs : lookupA fs e.1 = none := by
          rw [dictHas_eq_isSome] at hhas
          cases hc : lookupA fs e.1 with
          | some v => rw [hc] at hhas; simp at hhas
          | none => rfl
        simp [lookupA_dictSet, hfs, lookupA]
      · have h2 : ¬(e.1 = k) := fun hh => h hh.symm
        simp [lookupA_dictSet, h, lookupA, h2]

theorem lookupA_some_not_empty {fs : List (α × β)} {k : α} {v : β}
    (h : lookupA fs k = some v) : fs.isEmpty = false := by
  cases fs with
  | nil => simp [lookupA] at h
  | cons e t => rfl

end DictLemmas

-- ---------------------------------------------------------------------
-- Claim C1
-- ---------------------------------------------------------------------

/-- The value of the last pattern-1 match for a path (the first loop of
`parse_generated_code` assigns unconditionally, so the last assignment
survives). -/
def lastAssoc (l : List (List Char × List Char)) (k : List Char) :
    Option (List Char) :=
  lookupA l.reverse k

/-- C1 (amended): Convention A (fenced blocks) is applied before
Convention B (unfenced markers), and a Convention B match never
overwrites a path that already has content — first-match-wins holds for
Convention B across both passes.  But within Convention A, a later
fenced block declaring the same path DOES overwrite an earlier one: the
last fenced declaration for a path wins. -/
theorem parse_precedence_c1 (content p : List Char) :
    (∀ v, lastAssoc (pattern1Matches content) p = some v →
       lookupA (parse_generated_codeL content) p = some v) ∧
    (lastAssoc (pattern1Matches content) p = none →
     ∀ v, lookupA (pattern2Matches content) p = some v →
       lookupA (parse_generated_codeL content) p = some v) := by
  have hF : lookupA
      (applyKeepFirst (applyOverwrite [] (pattern1Matches content))
        (pattern2Matches content)) p =
      optOr (optOr (lookupA (pattern1Matches content).reverse p) none)
        (lookupA (pattern2Matches content) p) := by
    rw [lookupA_applyKeepFirst, lookupA_applyOverwrite]
    rfl
  constructor
  · intro v hv
    have hsome : lookupA
        (applyKeepFirst (applyOverwrite [] (pattern1Matches content))
          (pattern2Matches content)) p = some v := by
      rw [hF]
      unfold lastAssoc at hv
      rw [hv]
      rfl
    have hne := lookupA_some_not_empty hsome
    simp only [parse_generated_codeL]
    rw [hne]
    simpa using hsome
  · intro h1 v hv
    have hsome : lookupA
        (applyKeepFirst (applyOverwrite [] (pattern1Matches content))
          (pattern2Matches content)) p = some v := by
      rw [hF]
      unfold lastAssoc at h1
      rw [h1, hv]
      rfl
    have hne := lookupA_some_not_empty hsome
    simp only [parse_generated_codeL]
    rw [hne]
    simpa using hsome

/-- C1 witness: on a concrete completion with two fenced blocks for
`a.txt`, the hypotheses of `parse_precedence_c1` hold and the parser
returns the LAST fenced content. -/
theorem parse_precedence_c1_witness :
    lookupA
      (parse_generated_codeL
        (strL "```js\n// filename: a.txt\nONE\n```\nx\n```js\n// filename: a.txt\nTWO\n```"))
      (strL "a.txt") = some (strL "TWO") :=
  (parse_precedence_c1
    (strL "```js\n// filename: a.txt\nONE\n```\nx\n```js\n// filename: a.txt\nTWO\n```")
    (strL "a.txt")).1 (strL "TWO") (by decide)

/-- C1 counterexample: two fenced blocks declare `a.txt`; the claim
says the first block's content `ONE` survives, but the parser returns
the second block's content `TWO`. -/
theorem parse_c1_counterexample :
    parse_generated_code
        "```js\n// filename: a.txt\nONE\n```\nx\n```js\n// filename: a.txt\nTWO\n```" =
      [("a.txt", "TWO")] ∧
    parse_generated_code
        "```js\n// filename: a.txt\nONE\n```\nx\n```js\n// filename: a.txt\nTWO\n```" ≠
      [("a.txt", "ONE")] := by
  constructor
  · decide
  · decide

-- ---------------------------------------------------------------------
-- Claim C2
-- ---------------------------------------------------------------------

/-- C2 (confirmed): when neither marker convention produces a file, the
parser returns exactly one entry keyed `index.html`, whose content is
the (trimmed) inner content of an ```` ```html ```` fenced block if one
exists, else the substring from the first occurrence of
`<!DOCTYPE html>` to the end, else the whole input. -/
theorem parse_fallback_c2 (content : List Char)
    (h1 : pattern1Matches content = [])
    (h2 : pattern2Matches content = []) :
    parse_generated_codeL content = [(strL "index.html", parse_fallback content)] ∧
    (∀ inner, searchG1 fallbackPattern content = some inner →
       parse_fallback content = pyStrip inner) ∧
    (searchG1 fallbackPattern content = none →
     ∀ i, pyFind content (strL "<!DOCTYPE html>") = some i →
       parse_fallback content = content.drop i) ∧
    (searchG1 fallbackPattern content = none →
     pyFind content (strL "<!DOCTYPE html>") = none →
       parse_fallback content = content) := by
  refine ⟨?_, ?_, ?_, ?_⟩
  · simp only [parse_generated_codeL, h1, h2]
    rfl
  · intro inner hs
    simp only [parse_fallback, hs]
  · intro hs i hf
    simp only [parse_fallback, hs, hf]
  · intro hs hf
    simp only [parse_fallback, hs, hf]

/-- C2 witness: a markerless input produces the single `index.html`
entry with the whole text as content. -/
theorem parse_fallback_c2_witness :
    parse_generated_codeL (strL "hello world") =
      [(strL "index.html", parse_fallback (strL "hello world"))] ∧
    parse_fallback (strL "hello world") = strL "hello world" :=
  ⟨(parse_fallback_c2 (strL "hello world") (by decide) (by decide)).1,
   ((parse_fallback_c2 (strL "hello world") (by decide) (by decide)).2.2.2
     (by decide) (by decide))⟩

-- ---------------------------------------------------------------------
-- Claim C3
-- ---------------------------------------------------------------------

/-- C3 (code bug): `generate_fullstack_website` initializes its
`organized_files` dict without an `other` key, so a completion
containing a file whose path categorizes as `other` makes the assignment
`organized_files['other'][filename] = content` raise `KeyError('other')`
instead of returning a success result — contradicting the spec's
propagation policy.  `notes.txt` matches no category rule, so it
categorizes as `other` and the organizing loop fails. -/
theorem fullstack_other_keyerror_c3 :
    generate_fullstack_files "// filename: notes.txt\nhello" =
      Except.error "other" ∧
    categorize_file "notes.txt" = "other" := by
  exact ⟨rfl, rfl⟩

-- ---------------------------------------------------------------------
-- Claim C4
-- ---------------------------------------------------------------------

/-- C4 (amended): the extraction strategies run in strict precedence
order, but step (1) matches the doctype CASE-SENSITIVELY (Python
`str.find` with the exact text `<!DOCTYPE html>`), not
case-insensitively; step (2) likewise finds the literal `<html`; step
(3) is the source regex that requires an html-tagged fence whose content
starts (after whitespace) with a doctype, returning from the doctype to
the block end; step (4) is the source regex returning the content of any
`html`/`htm` fence; step (5) returns the input unchanged. -/
theorem extract_precedence_c4 (content : List Char) :
    (∀ i, pyFind content (strL "<!DOCTYPE html>") = some i →
       extract_html content = content.drop i) ∧
    (pyFind content (strL "<!DOCTYPE html>") = none →
     ∀ i, pyFind content (strL "<html") = some i →
       extract_html content = content.drop i) ∧
    (pyFind content (strL "<!DOCTYPE html>") = none →
     pyFind content (strL "<html") = none →
     ∀ g, searchG1 pattern3 content = some g →
       extract_html content = g) ∧
    (pyFind content (strL "<!DOCTYPE html>") = none →
     pyFind content (strL "<html") = none →
     searchG1 pattern3 content = none →
     ∀ g, searchG1 pattern4 content = some g →
       extract_html content = g) ∧
    (pyFind content (strL "<!DOCTYPE html>") = none →
     pyFind content (strL "<html") = none →
     searchG1 pattern3 content = none →
     searchG1 pattern4 content = none →
       extract_html content = content) := by
  refine ⟨?_, ?_, ?_, ?_, ?_⟩
  · intro i h
    simp only [extract_html, h]
  · intro h1 i h2
    simp only [extract_html, h1, h2]
  · intro h1 h2 g h3
    simp only [extract_html, h1, h2, h3]
  · intro h1 h2 h3 g h4
    simp only [extract_html, h1, h2, h3, h4]
  · intro h1 h2 h3 h4
    simp only [extract_html, h1, h2, h3, h4]

/-- C4 witness: on a text starting with an exact doctype, step (1)
returns the text from the doctype on. -/
theorem extract_precedence_c4_witness :
    extract_html (strL "x<!DOCTYPE html>rest") =
      (strL "x<!DOCTYPE html>rest").drop 1 :=
  (extract_precedence_c4 (strL "x<!DOCTYPE html>rest")).1 1 (by decide)

/-- C4 counterexample: `x<!doctype html>` contains a doctype declaration
case-insensitively at index 1, so the claim requires the result to be
the substring from index 1; the code's case-sensitive find misses it and
every other strategy fails, so the whole input is returned unchanged. -/
theorem extract_c4_counterexample :
    pyFindCI (strL "x<!doctype html>") (strL "<!DOCTYPE html>") = some 1 ∧
    extract_html (strL "x<!doctype html>") = strL "x<!doctype html>" ∧
    strL "x<!doctype html>" ≠ (strL "x<!doctype html>").drop 1 := by
  refine ⟨by decide, by decide, by decide⟩

-- ---------------------------------------------------------------------
-- Claim C5
-- ---------------------------------------------------------------------

/-- C5 counterexample: on the spec's example input the doctype-find
strategy fires first (the doctype occurs verbatim inside the fence) and
returns everything from the doctype to the end of the text, so the
trailing fence delimiter and the following noise are NOT removed; the
result is not the claimed bare document. -/
theorem extract_c5_counterexample :
    extract_html_full
        (strL "noise ```html\n<!DOCTYPE html><html></html>\n``` more noise") ≠
      strL "<!DOCTYPE html><html></html>" := by
  decide

/-- C5 (amended): on the example input, extraction returns the substring
from the first `<!DOCTYPE html>` occurrence to the end of the text
(trimmed), keeping the fence delimiter and the trailing noise. -/
theorem extract_c5_amended :
    extract_html_full
        (strL "noise ```html\n<!DOCTYPE html><html></html>\n``` more noise") =
      strL "<!DOCTYPE html><html></html>\n``` more noise" := by
  decide

-- ---------------------------------------------------------------------
-- Claim C6
-- ---------------------------------------------------------------------

/-- C6 (amended): `categorize_file` is a total function applying the
priority rules in order; the result is `frontend` exactly when the
lowercased path CONTAINS (as a substring, not only as a suffix) one of
`frontend/`, `client/`, `components/`, `pages/`, `.html`, `.css`,
`.jsx`, `.tsx`, `.vue`; and every path matching none of the five
category rules maps to `other`. -/
theorem categorize_spec_c6 (path : List Char) :
    (categorize_fileL path = strL "frontend" ↔
       anyNeedle frontendNeedles (pyLower path) = true) ∧
    (anyNeedle frontendNeedles (pyLower path) = false →
     anyNeedle backendNeedles (pyLower path) = false →
     anyNeedle databaseNeedles (pyLower path) = false →
     anyNeedle configNeedles (pyLower path) = false →
     endsWithL (strL ".md") (pyLower path) = false →
       categorize_fileL path = strL "other") := by
  constructor
  · by_cases h1 : anyNeedle frontendNeedles (pyLower path) = true
    · simp [categorize_fileL, h1]
    · simp only [categorize_fileL]
      rw [if_neg (by simpa using h1)]
      simp only [h1, iff_false]
      split
      · decide
      · split
        · decide
        · split
          · decide
          · split
            · decide
            · decide
  · intro h1 h2 h3 h4 h5
    simp [categorize_fileL, h1, h2, h3, h4, h5]

/-- C6 witness: a path matching no rule categorizes as `other`, and the
frontend characterization evaluates to false on it. -/
theorem categorize_spec_c6_witness :
    categorize_fileL (strL "zzz") = strL "other" :=
  (categorize_spec_c6 (strL "zzz")).2 (by decide) (by decide) (by decide)
    (by decide) (by decide)

/-- C6 counterexample: `x.html.txt` neither contains a frontend
directory segment nor ends with a frontend extension, so the claim's
characterization says it is not `frontend`; but the code matches
`.html` by substring containment and categorizes it as `frontend`. -/
theorem categorize_c6_counterexample :
    categorize_file "x.html.txt" = "frontend" ∧
    claimFrontendCond (strL "x.html.txt") = false := by
  refine ⟨by decide, by decide⟩

-- ---------------------------------------------------------------------
-- Claim C7
-- ---------------------------------------------------------------------

/-- C7 (amended): the views-level client `call_openrouter_api` never
raises: every backend outcome — timeout, non-2xx status, undecodable
JSON, or missing/malformed fields — yields a returned result, a failure
carrying the exception text on any error and the first choice's content,
total token usage and reported model id on success.  The service-level
`_make_request`, however, returns a failure only for
`RequestException`s; any other exception (such as a `KeyError` for a
missing field in a 2xx JSON body) propagates to its caller. -/
theorem client_behavior_c7 (outcome : BackendOutcome) (model : String)
    (modelOpt : Option String) :
    (∃ r, call_openrouter_api outcome model = Except.ok r) ∧
    (∀ c t m, apiRequestRaw outcome (JValue.jstr model) = Except.ok (c, t, m) →
       call_openrouter_api outcome model = Except.ok (ApiResult.success c t m)) ∧
    (∀ e, apiRequestRaw outcome (JValue.jstr model) = Except.error e →
       call_openrouter_api outcome model = Except.ok (ApiResult.failure (pyStr e))) ∧
    (∀ e, apiRequestRaw outcome (modelOpt.elim JValue.null JValue.jstr) = Except.error e →
     isRequestException e.kind = true →
       make_request outcome modelOpt = Except.ok (ApiResult.failure (pyStr e))) := by
  refine ⟨?_, ?_, ?_, ?_⟩
  · cases h : apiRequestRaw outcome (JValue.jstr model) with
    | ok p => exact ⟨ApiResult.success p.1 p.2.1 p.2.2, by simp [call_openrouter_api, h]⟩
    | error e => exact ⟨ApiResult.failure (pyStr e), by simp [call_openrouter_api, h]⟩
  · intro c t m h
    simp [call_openrouter_api, h]
  · intro e h
    simp [call_openrouter_api, h]
  · intro e h hreq
    simp [make_request, h, hreq]

/-- C7 witness: a 2xx response with a well-formed body yields the
success result; the missing `usage` and `model` fields fall back to
`0` tokens and the requested model id. -/
theorem client_behavior_c7_witness :
    call_openrouter_api
        (BackendOutcome.httpResponse 200
          (some (JValue.jobj
            [("choices",
              JValue.jarr
                [JValue.jobj [("message", JValue.jobj [("content", JValue.jstr "hi")])]])])))
        "gpt-4o" =
      Except.ok (ApiResult.success (JValue.jstr "hi") (JValue.jnum 0) (JValue.jstr "gpt-4o")) :=
  (client_behavior_c7
    (BackendOutcome.httpResponse 200
      (some (JValue.jobj
        [("choices",
          JValue.jarr
            [JValue.jobj [("message", JValue.jobj [("content", JValue.jstr "hi")])]])])))
    "gpt-4o" none).2.1 (JValue.jstr "hi") (JValue.jnum 0) (JValue.jstr "gpt-4o") rfl

/-- C7 counterexample: a 2xx response whose JSON body is an empty object
makes `_make_request` raise `KeyError('choices')` to its caller instead
of returning a failure result, refuting the claim that the completion
client never raises on missing fields. -/
theorem make_request_raises_c7 :
    make_request (BackendOutcome.httpResponse 200 (some (JValue.jobj []))) none =
      Except.error ⟨PyExcKind.keyError, "choices"⟩ := rfl

-- ---------------------------------------------------------------------
-- Claim C8
-- ---------------------------------------------------------------------

/-- C8 (amended): the full-stack archive contains every extracted file
at its declared relative path plus the generated README summarizing
title, description, stack and features; every path occurs in the
archive exactly as many times as in the file-set, plus one extra
occurrence for `README.md` — so a file-set that itself contains
`README.md` yields an archive with two `README.md` entries (paths are
not deduplicated). -/
theorem zip_entries_c8 (p : Project) :
    (∀ fn c, (∃ cat inner, (cat, inner) ∈ p.files ∧ (fn, c) ∈ inner) →
       (fn, c) ∈ buildFullstackZip p) ∧
    ("README.md", fullstackReadme p) ∈ buildFullstackZip p ∧
    (∀ path, path ≠ "README.md" →
       (buildFullstackZip p).countP (fun e => e.1 == path) =
         (flattenFiles p.files).countP (fun e => e.1 == path)) ∧
    (buildFullstackZip p).countP (fun e => e.1 == "README.md") =
      (flattenFiles p.files).countP (fun e => e.1 == "README.md") + 1 := by
  refine ⟨?_, ?_, ?_, ?_⟩
  · rintro fn c ⟨cat, inner, hmem, hin⟩
    have : (fn, c) ∈ flattenFiles p.files := by
      simp only [flattenFiles, List.mem_flatten]
      exact ⟨inner, List.mem_map.mpr ⟨(cat, inner), hmem, rfl⟩, hin⟩
    exact List.mem_append.mpr (Or.inl this)
  · exact List.mem_append.mpr (Or.inr (List.mem_singleton.mpr rfl))
  · intro path hpath
    have : (("README.md" : String) == path) = false := by
      simp [hpath, Ne.symm hpath]
    simp [buildFullstackZip, List.countP_append, List.countP_cons, this]
  · simp [buildFullstackZip, List.countP_append, List.countP_cons]

/-- A stored project whose file-set already contains a `README.md`. -/
def projCexC8 : Project :=
  ⟨"T", "D", "react_node", false, false, false, [("docs", [("README.md", "old")])]⟩

/-- C8 witness: on a concrete project, a path other than `README.md`
occurs in the archive exactly as often as in the file-set. -/
theorem zip_entries_c8_witness :
    (buildFullstackZip projCexC8).countP (fun e => e.1 == "index.html") =
      (flattenFiles projCexC8.files).countP (fun e => e.1 == "index.html") :=
  (zip_entries_c8 projCexC8).2.2.1 "index.html" (by decide)

/-- C8 counterexample: the archive of a project whose file-set contains
`README.md` holds TWO entries named `README.md`, refuting the claim
that each path appears exactly once for every file-set. -/
theorem zip_c8_counterexample :
    (buildFullstackZip projCexC8).countP (fun e => e.1 == "README.md") = 2 ∧
    (2 : Nat) ≠ 1 := ⟨rfl, by decide⟩

-- ---------------------------------------------------------------------
-- Claim C9
-- ---------------------------------------------------------------------

/-- C9 (confirmed): when the requested project id is not in the registry
but a previously generated static document exists, `download_project`
returns the static archive (`index.html` plus `README.md`) under the
requested id's filename; and a 404 plain response occurs only when the
registry lookup fails and no static document exists. -/
theorem download_fallback_c9 :
    (∀ (p : String) (registry : List (String × Project))
       (latest : Option String) (h : String),
       p ≠ "" → lookupA registry p = none → latest = some h →
       download_project (some p) registry latest =
         DownloadResult.zipAttachment (staticZip h) p) ∧
    (∀ pid registry latest,
       download_project pid registry latest =
         DownloadResult.plainResponse "No project to download" 404 →
       registryLookup pid registry = none ∧ latest = none) := by
  constructor
  · intro p registry latest h hp hreg hl
    subst hl
    simp [download_project, registryLookup, hp, hreg, downloadFilename]
  · intro pid registry latest hres
    cases hr : registryLookup pid registry with
    | some proj => simp [download_project, hr] at hres
    | none =>
      cases hl : latest with
      | some h => simp [download_project, hr, hl] at hres
      | none => exact ⟨rfl, rfl⟩

/-- C9 witness: an unknown id with a stored static document yields the
static archive named after the requested id. -/
theorem download_fallback_c9_witness :
    download_project (some "project_9") [] (some "<h1>x</h1>") =
      DownloadResult.zipAttachment (staticZip "<h1>x</h1>") "project_9" :=
  download_fallback_c9.1 "project_9" [] (some "<h1>x</h1>") "<h1>x</h1>"
    (by decide) rfl rfl

-- ---------------------------------------------------------------------
-- Claim C10
-- ---------------------------------------------------------------------

theorem strAppend_assoc (a b c : String) : (a ++ b) ++ c = a ++ (b ++ c) := by
  cases a with
  | mk la =>
    cases b with
    | mk lb =>
      cases c with
      | mk lc =>
        show String.mk ((la ++ lb) ++ lc) = String.mk (la ++ (lb ++ lc))
        rw [List.append_assoc]

/-- C10 (confirmed): the conversion user prompt is exactly a fixed
prefix, then the 3000-character prefix of the static document, then the
literal truncation comment and the rest of the prompt — so the prompt
depends on at most the first 3000 characters of the document, and the
embedded slice never exceeds 3000 characters. -/
theorem convert_prompt_c10 (static_html stack : String)
    (has_auth has_db has_api : Bool) :
    convert_user_prompt static_html stack has_auth has_db has_api =
      convertPromptPre stack ++ pyTake static_html 3000 ++
        convertPromptPost has_auth has_db has_api ∧
    (pyTake static_html 3000).data.length ≤ 3000 := by
  constructor
  · simp only [convert_user_prompt, convertPromptPre, convertPromptPost,
      strAppend_assoc]
  · show (static_html.data.take 3000).length ≤ 3000
    rw [List.length_take]
    exact Nat.min_le_left _ _
